import Mathlib

/-!
Verification of the JOBMATE_AI_BE analysis pipeline.

This file gives a shallow embedding of the repository's Python sources:
Python dicts become association lists over a `PyVal` value type, dataclass
construction is modelled with explicit keyword-argument checking against the
dataclass's declared field list (Python raises a `TypeError` for an unexpected
keyword argument and for a missing required argument), and fallible code
returns `Except` or `Option`.  External collaborators (Azure OpenAI, Azure
Document Intelligence, Azure Speech, the MongoDB driver) are modelled as
oracle parameters delivering their observable outcomes, exactly as the code
consumes them; all routing, validation, fallback and assembly logic is
translated from the source files.
-/

/- ===================== Python values and dicts ===================== -/

/-- A Python/JSON-style value, as passed between the Azure Functions of the
repository (strings, ints, bools, lists, dicts, None). -/
inductive PyVal : Type where
  | str (s : String)
  | int (n : Int)
  | bool (b : Bool)
  | list (xs : List PyVal)
  | dict (kvs : List (String × PyVal))
  | null

/-- A Python dict: an association list from string keys to values.  Real
Python dicts have unique keys; `dset` below preserves that discipline. -/
abbrev PyDict := List (String × PyVal)

/-- Dict lookup `d[k]` returning an `Option` (first binding wins). -/
def dget (d : PyDict) (k : String) : Option PyVal :=
  match d with
  | [] => none
  | (k₁, v) :: rest => if k₁ = k then some v else dget rest k

/-- Python's `d.get(k, default)`: lookup with a default. -/
def dgetD (d : PyDict) (k : String) (v₀ : PyVal) : PyVal :=
  (dget d k).getD v₀

/-- Dict assignment `d[k] = v`: replaces the existing binding for `k`
(keeping its position) or appends a new one, as a Python dict does. -/
def dset (d : PyDict) (k : String) (v : PyVal) : PyDict :=
  match d with
  | [] => [(k, v)]
  | (k₁, v₁) :: rest => if k₁ = k then (k₁, v) :: rest else (k₁, v₁) :: dset rest k v

/-- Python's `d.pop(k)` effect on the dict: the binding for `k` is removed.
Keys of a Python dict are unique, so removing the binding is filtering the
key out. -/
def dpop (d : PyDict) (k : String) : PyDict :=
  d.filter (fun kv => kv.1 ≠ k)

/-- Python truthiness for the values we model: empty strings, zero, False,
empty containers and None are falsy. -/
def pyTruthy : PyVal → Bool
  | .str s => s ≠ ""
  | .int n => n ≠ 0
  | .bool b => b
  | .list xs => !xs.isEmpty
  | .dict kvs => !kvs.isEmpty
  | .null => false

/- ===================== Dataclass construction (shared_code/models.py) ==== -/

/-- Python dataclass `__init__` keyword-call semantics: calling the generated
initializer raises a `TypeError` if some keyword argument is not a declared
field, or if a field without a default value is not supplied.  On success the
constructed object is the supplied keyword record. -/
def dataclassInit (declared required : List String) (kwargs : PyDict) :
    Except String PyDict :=
  match kwargs.find? (fun kv => !(declared.contains kv.1)) with
  | some kv => .error ("TypeError: unexpected keyword argument " ++ kv.1)
  | none =>
    match required.find? (fun f => !(kwargs.any (fun kv => kv.1 == f))) with
    | some f => .error ("TypeError: missing required argument " ++ f)
    | none => .ok kwargs

/-- Declared fields of `shared_code.models.NextAction` (models.py lines 4-11):
`action`, `priority`, `key` — and nothing else. -/
def nextActionFields : List String := ["action", "priority", "key"]

/-- Fields of `NextAction` without a default value. -/
def nextActionRequired : List String := ["action", "priority"]

/-- Declared fields of `shared_code.models.Feedback` (models.py lines 13-23):
note there is no `title` field. -/
def feedbackFields : List String :=
  ["score", "good_points", "improvement_points", "missed_points",
   "mentor_comment", "reasoning_summary"]

/-- Fields of `Feedback` without a default value. -/
def feedbackRequired : List String := ["score"]

/-- Declared fields of `shared_code.models.AnalysisResult` (models.py lines
48-58): note there is no `title` field. -/
def analysisResultFields : List String :=
  ["score", "feedback", "suggested_questions", "next_actions", "file_analysis"]

/-- Fields of `AnalysisResult` without a default value. -/
def analysisResultRequired : List String := ["score", "feedback"]

/- ============== ComprehensionEvaluationAgent/__init__.py ============== -/

/-- The keyword arguments `_create_error_feedback` passes to `Feedback`
(ComprehensionEvaluationAgent lines 224-233): title="분석 오류", score=0,
empty good points, the message as the single improvement point, and a fixed
missed point. -/
def createErrorFeedbackKwargs (message : String) : PyDict :=
  [("title", .str "분석 오류"),
   ("score", .int 0),
   ("good_points", .list []),
   ("improvement_points", .list [.str message]),
   ("missed_points", .list [.str "오류로 인해 분석을 완료할 수 없습니다."])]

/-- `_create_error_feedback(message)`: builds the degraded `Feedback` and
returns its dict.  The `Feedback` construction is a dataclass call, so it is
subject to the declared-field check of models.py. -/
def createErrorFeedback (message : String) : Except String PyVal :=
  (dataclassInit feedbackFields feedbackRequired
    (createErrorFeedbackKwargs message)).map PyVal.dict

/-- The `Feedback(...)` call on the success path of the evaluation agent
(lines 123-131): every field is filled from the parsed AI response with a
default, and a `title` keyword is passed. -/
def feedbackFromEvaluationData (evaluationData : PyDict) : Except String PyVal :=
  (dataclassInit feedbackFields feedbackRequired
    [("title", dgetD evaluationData "title" (.str "")),
     ("score", dgetD evaluationData "score" (.int 0)),
     ("good_points", dgetD evaluationData "good_points" (.list [])),
     ("improvement_points", dgetD evaluationData "improvement_points" (.list [])),
     ("missed_points", dgetD evaluationData "missed_points" (.list [])),
     ("mentor_comment", dgetD evaluationData "mentor_comment" (.list [])),
     ("reasoning_summary", dgetD evaluationData "reasoning_summary" (.list []))]).map
    PyVal.dict

/-- Outcome of the Azure OpenAI call plus `_parse_ai_response` in the
evaluation agent, abstracted as the collaborator outcome the surrounding
control flow consumes: the API call raised an `APIError`, the response could
not be parsed (any other exception inside the try block before the `Feedback`
call), or a parsed evaluation dict was produced. -/
inductive EvalAiPath where
  | apiError
  | parseFailure
  | parsed (evaluationData : PyDict)

/-- `ComprehensionEvaluationAgent.main` (lines 26-143), with the OpenAI
call/parse abstracted as `path`.  `clientOk` is whether the module-scope
client initialization succeeded.  Every branch ends in a `Feedback`
dataclass construction; exceptions raised by `_create_error_feedback` inside
an `except` block propagate out of `main`, so the result is the final
`Except` of whichever construction runs. -/
def comprehensionEvaluationMain (clientOk : Bool) (request : PyDict)
    (path : EvalAiPath) : Except String PyVal :=
  if !clientOk then
    createErrorFeedback "Azure OpenAI client is not initialized. Check environment variables."
  else
    let documentContent := dgetD request "document_content" (.str "")
    let userSummary := dgetD request "user_summary" (.str "")
    if !(pyTruthy documentContent) || !(pyTruthy userSummary) then
      createErrorFeedback "Document content or user summary is missing."
    else
      match path with
      | .apiError => createErrorFeedback "서비스 연결 중 오류가 발생했습니다 (API Error)."
      | .parseFailure => createErrorFeedback "AI 응답을 처리하는 중 오류가 발생했습니다."
      | .parsed evaluationData =>
        match feedbackFromEvaluationData evaluationData with
        | .ok v => .ok v
        | .error _ =>
          -- the TypeError is caught by `except Exception` which calls
          -- `_create_error_feedback`, whose own Feedback call then raises
          createErrorFeedback "AI 응답을 처리하는 중 오류가 발생했습니다."

/-- The `TypeError` produced by every `Feedback(...)` call site of the
evaluation agent: `title` is not a declared field of the dataclass. -/
def feedbackTitleTypeError : String := "TypeError: unexpected keyword argument title"

/- ============== JobMateOrchestrator/__init__.py ============== -/

/-- One step of the durable orchestration as the replay engine observes it:
an activity call being scheduled with its input, or the orchestrator
suspending until a set of scheduled activities has completed and their
results are delivered. -/
inductive OrchEvent where
  | activityScheduled (activityName : String) (input : PyVal)
  | resultsAwaited (results : List PyVal)

/-- The input record the orchestrator builds for `ContentAwareAgent`
(lines 31-34): file names and raw files only. -/
def fileAnalysisRequest (fileNames files : PyVal) : PyDict :=
  [("file_names", fileNames), ("files", files)]

/-- Lines 37-38: if the speech-to-text pass produced any text, it is added to
the processed content under `stt_texts`. -/
def withSttTexts (processedContent : PyDict) (sttTexts : List PyVal) : PyDict :=
  if sttTexts.isEmpty then processedContent
  else dset processedContent "stt_texts" (.list sttTexts)

/-- The `analysis_data` record (lines 44-49) handed to all three analysis
agents: user summary plus the extraction results.  It has exactly the four
keys `user_summary`, `file_analysis`, `document_content`, `stt_texts`. -/
def analysisData (userSummary : PyVal) (processedContent : PyDict) : PyDict :=
  [("user_summary", userSummary),
   ("file_analysis", dgetD processedContent "file_analysis" (.list [])),
   ("document_content", dgetD processedContent "extracted_content" (.str "")),
   ("stt_texts", dgetD processedContent "stt_texts" (.list []))]

/-- The event trace of `orchestrator_function` (lines 11-62) up to the join
of the three analysis agents: extraction is called and awaited, then the
evaluation, question and action activities are scheduled — all three with the
same `analysis_data` record — and the orchestrator suspends once on
`task_all` for all three results. -/
def orchestratorTrace (analysisRequest : PyDict) (sttTexts : List PyVal)
    (processedContent : PyDict) (stageResults : List PyVal) : List OrchEvent :=
  let fileNames := dgetD analysisRequest "file_names" (.list [])
  let files := dgetD analysisRequest "files" (.list [])
  let userSummary := dgetD analysisRequest "user_summary" (.str "")
  let pc := withSttTexts processedContent sttTexts
  let d := PyVal.dict (analysisData userSummary pc)
  [.activityScheduled "ContentAwareAgent" (.dict (fileAnalysisRequest fileNames files)),
   .resultsAwaited [.dict processedContent],
   .activityScheduled "ComprehensionEvaluationAgent" d,
   .activityScheduled "QuestionGenerationAgent" d,
   .activityScheduled "ActionItemSuggestionAgent" d,
   .resultsAwaited stageResults]

/-- Python `d[k]` item access: raises `KeyError` when the key is absent. -/
def pyGetItem (d : PyDict) (k : String) : Except String PyVal :=
  match dget d k with
  | some v => .ok v
  | none => .error ("KeyError: " ++ k)

/-- The result-assembly step of the orchestrator (lines 67-74):
`AnalysisResult(title=evaluation_result['title'], score=evaluation_result['score'],
feedback=Feedback(**evaluation_result), suggested_questions=..., next_actions=...,
file_analysis=...)`.  Both dataclass calls are checked against the declared
fields of models.py. -/
def orchestratorAssemble (evaluationResult : PyDict)
    (questionResult actionResult fileAnalysisResults : PyVal) :
    Except String PyVal := do
  let title ← pyGetItem evaluationResult "title"
  let score ← pyGetItem evaluationResult "score"
  let feedback ← (dataclassInit feedbackFields feedbackRequired evaluationResult).map PyVal.dict
  (dataclassInit analysisResultFields analysisResultRequired
    [("title", title), ("score", score), ("feedback", feedback),
     ("suggested_questions", questionResult), ("next_actions", actionResult),
     ("file_analysis", fileAnalysisResults)]).map PyVal.dict

/-- The key/isChecked assignment loop of the orchestrator (lines 77-81): for
each action dict of `next_actions`, in received order, `action['key'] = index`
then `action['isChecked'] = False`. -/
def addKeyAndIsChecked (nextActions : List PyDict) : List PyDict :=
  nextActions.enum.map (fun p => dset (dset p.2 "key" (.int p.1)) "isChecked" (.bool false))

/-- Outcome of the storage step of the orchestrator (lines 84-106): the save
succeeded, the save returned a failure record, or the storage client raised.
All three are absorbed by the try/except around the save. -/
inductive SaveOutcome where
  | success (documentId : String)
  | failure (errorMessage : String)
  | raised (errorMessage : String)

/-- The terminal step of the orchestrator (lines 84-117): whatever the
storage outcome, the in-memory result dict gets `report_id` attached
(line 113) and `file_analysis` popped (line 114) and is returned. -/
def orchestratorPersistAndReturn (analysisResultDict : PyDict) (reportId : String)
    (save : SaveOutcome) : PyDict :=
  match save with
  | .success _ => dpop (dset analysisResultDict "report_id" (.str reportId)) "file_analysis"
  | .failure _ => dpop (dset analysisResultDict "report_id" (.str reportId)) "file_analysis"
  | .raised _ => dpop (dset analysisResultDict "report_id" (.str reportId)) "file_analysis"

/- ============== SpeechToTextAgent/__init__.py ============== -/

/-- Audio extensions of `is_audio_or_video` (SpeechToTextAgent lines 6-10). -/
def audioExts : List String := [".wav", ".mp3", ".m4a", ".aac", ".ogg", ".flac"]

/-- Video extensions of `is_audio_or_video`. -/
def videoExts : List String := [".mp4", ".avi", ".mov", ".wmv", ".mkv"]

/-- Python's `str.lower()` for the ASCII range, character by character
(reduces in the kernel, unlike the byte-position-based library function). -/
def lowerString (s : String) : String :=
  String.mk (s.toList.map Char.toLower)

/-- Index of the last dot of a character list, if any. -/
def lastDotIndexAux : List Char → Nat → Option Nat
  | [], _ => none
  | c :: rest, i =>
    match lastDotIndexAux rest (i + 1) with
    | some j => some j
    | none => if c = '.' then some i else none

/-- `os.path.splitext(filename)[1]` for plain file names (no path
separators): the suffix starting at the last dot, except that a name whose
characters before that dot are all dots has no extension. -/
def splitextExt (filename : String) : String :=
  let cs := filename.toList
  match lastDotIndexAux cs 0 with
  | none => ""
  | some i =>
    if (cs.take i).any (fun c => c ≠ '.') then String.mk (cs.drop i) else ""

/-- `is_audio_or_video(filename)`: the lower-cased extension is one of the
known audio or video extensions. -/
def isAudioOrVideo (filename : String) : Bool :=
  (audioExts ++ videoExts).contains (lowerString (splitextExt filename))

/- ============== ContentAwareAgent/__init__.py ============== -/

/-- The extension-to-MIME table of `_get_file_type_from_name` (lines 19-33). -/
def mimeTypes : List (String × String) :=
  [("pdf", "application/pdf"),
   ("doc", "application/msword"),
   ("docx", "application/vnd.openxmlformats-officedocument.wordprocessingml.document"),
   ("xls", "application/vnd.ms-excel"),
   ("xlsx", "application/vnd.openxmlformats-officedocument.spreadsheetml.sheet"),
   ("ppt", "application/vnd.ms-powerpoint"),
   ("pptx", "application/vnd.openxmlformats-officedocument.presentationml.presentation"),
   ("jpg", "image/jpeg"),
   ("jpeg", "image/jpeg"),
   ("png", "image/png"),
   ("bmp", "image/bmp"),
   ("tiff", "image/tiff"),
   ("tif", "image/tiff")]

/-- `_get_file_type_from_name` (lines 15-35): the part of the lower-cased
file name after its last dot (empty when the name has no dot) selects a MIME
type, defaulting to application/octet-stream. -/
def getFileTypeFromName (fileName : String) : String :=
  let ext :=
    if fileName.toList.contains '.' then
      String.mk (((lowerString fileName).toList.reverse.takeWhile (fun c => c ≠ '.')).reverse)
    else ""
  ((mimeTypes.lookup ext).getD "application/octet-stream")

/-- `shared_code.models.FileAnalysisResult` (models.py lines 25-36).  This is
the one dataclass whose declared fields match every construction site, so it
is modelled directly as a structure.  `confidence_score` is the
collaborator-derived confidence (the source averages floating-point
confidences reported by Document Intelligence; the averaged value is
delivered by the collaborator oracle below). -/
structure FileAnalysisResult where
  file_name : String
  file_type : String
  extracted_text : String
  document_structure : PyDict
  confidence_score : Rat
  processing_status : String

/-- Outcome of the Document Intelligence call for one document-routed file,
as consumed by the per-file try block (ContentAwareAgent lines 112-199):
either the poller returned a result (content string, structure data,
averaged confidence), or some step of the block raised with a message. -/
inductive DocOutcome where
  | analyzed (content : String) (layout : PyDict) (confidence : Rat)
  | raised (message : String)

/-- The `FileAnalysisResult` built for one audio/video file (lines 97-108):
file type "audio_or_video", the STT text, no structure, confidence 0.0 and
status `stt_completed`. -/
def sttEntry (fileName sttText : String) : FileAnalysisResult :=
  ⟨fileName, "audio_or_video", sttText, [], 0, "stt_completed"⟩

/-- The `FileAnalysisResult` built for one document file: on success (lines
177-186) status `completed` with the extracted content; on any per-file
exception (lines 188-199) `file_type="unknown"`, empty extracted text and
status `"error: <message>"` — the loop continues either way. -/
def docEntry (fileName : String) (outcome : DocOutcome) : FileAnalysisResult :=
  match outcome with
  | .analyzed content layout confidence =>
    ⟨fileName, getFileTypeFromName fileName, content, layout, confidence, "completed"⟩
  | .raised message => ⟨fileName, "unknown", "", [], 0, "error: " ++ message⟩

/-- The audio/video-routed files with their original indices (lines 82-86). -/
def sttRouted (fileNames : List String) : List (Nat × String) :=
  fileNames.enum.filter (fun p => isAudioOrVideo p.2)

/-- The document-routed files with their original indices (lines 82-86). -/
def docRouted (fileNames : List String) : List (Nat × String) :=
  fileNames.enum.filter (fun p => !(isAudioOrVideo p.2))

/-- Python's `sep.join(parts)`. -/
def joinSep (sep : String) : List String → String
  | [] => ""
  | [x] => x
  | x :: rest => x ++ sep ++ joinSep sep rest

/-- The fragments accumulated into `all_extracted_text`: every STT text
(appended unconditionally, line 108), then, per document file in routed
order, the extracted content whenever the poller returned non-empty content
(lines 142-144); failed files contribute nothing. -/
def allExtractedText (fileNames : List String) (stt : Nat → String)
    (doc : Nat → DocOutcome) : List String :=
  (sttRouted fileNames).map (fun p => stt p.1)
    ++ (docRouted fileNames).filterMap (fun p =>
        match doc p.1 with
        | .analyzed content _ _ => if content = "" then none else some content
        | .raised _ => none)

/-- `ContentAwareAgent.main` (lines 37-220) with the two collaborators
(Azure Speech, Azure Document Intelligence) abstracted as per-original-index
oracles: returns the `file_analysis` sequence and the combined
`extracted_content`.  With no files it returns the empty result (lines
68-74); otherwise the STT-routed files are processed first (lines 89-108),
then the document-routed files (lines 110-199), and the combined text joins
the accumulated fragments with a blank line (line 202). -/
def contentAwareMain (fileNames : List String) (files : List PyVal)
    (stt : Nat → String) (doc : Nat → DocOutcome) :
    List FileAnalysisResult × String :=
  if files.isEmpty then ([], "")
  else
    ((sttRouted fileNames).map (fun p => sttEntry p.2 (stt p.1))
      ++ (docRouted fileNames).map (fun p => docEntry p.2 (doc p.1)),
     joinSep "\n\n" (allExtractedText fileNames stt doc))

/-- The guarantees the extraction stage actually gives when the document
file at original index `j` fails: its entry is present with empty text and
an "error: "-prefixed status, and the combined text still contains the text
of every other successfully extracted file (document or audio/video). -/
def ContentAwareFailureSpec (fileNames : List String) (files : List PyVal)
    (stt : Nat → String) (doc : Nat → DocOutcome) (j : Nat)
    (name message : String) : Prop :=
  docEntry name (doc j) ∈ (contentAwareMain fileNames files stt doc).1
  ∧ (docEntry name (doc j)).extracted_text = ""
  ∧ (docEntry name (doc j)).processing_status = "error: " ++ message
  ∧ (∀ (i : Nat) (nm content : String) (layout : PyDict) (confidence : Rat),
      (i, nm) ∈ docRouted fileNames → doc i = .analyzed content layout confidence →
      content ≠ "" →
      ∃ pre post, (contentAwareMain fileNames files stt doc).2 = pre ++ content ++ post)
  ∧ (∀ p ∈ sttRouted fileNames,
      ∃ pre post, (contentAwareMain fileNames files stt doc).2 = pre ++ stt p.1 ++ post)

/-- Document Intelligence oracle for the concrete two-file test: the first
file analyzes, the second raises. -/
def cDocOracle : Nat → DocOutcome :=
  fun i => if i = 0 then DocOutcome.analyzed "알파 본문" [] 0 else DocOutcome.raised "boom"

/- ============== shared_code/mongodb_storage.py ============== -/

/-- One MongoDB document of the `analysis_results` collection, as
`save_analysis_result` stores it (lines 69-74): the generated `_id`
(as a string), the `(userId, reportId)` key, a creation timestamp and the
analysis-result payload. -/
structure MongoDoc where
  objectId : String
  userId : String
  reportId : String
  creationDatetime : Nat
  analysisResult : PyVal

/-- The collection: a list of documents, insertion-ordered. -/
abbrev MongoStore := List MongoDoc

/-- The filter `{"userId": u, "reportId": r}`. -/
def docMatches (u r : String) (d : MongoDoc) : Bool :=
  d.userId == u && d.reportId == r

/-- `find_one({"userId": u, "reportId": r})`: the first matching document. -/
def findOne (store : MongoStore) (u r : String) : Option MongoDoc :=
  store.find? (docMatches u r)

/-- The response dict built from a found document (lines 164-177 and
126-137): document id as string, the key fields, the payload under `value`
and the iso-formatted creation time. -/
def formatResult (d : MongoDoc) : PyDict :=
  [("id", .str d.objectId),
   ("userId", .str d.userId),
   ("reportId", .str d.reportId),
   ("value", d.analysisResult),
   ("creation_datetime", .str (toString d.creationDatetime))]

/-- `get_analysis_result_by_report` (lines 146-184): point lookup by
`(userId, reportId)`, formatted; `None` when no document matches. -/
def get_analysis_result_by_report (store : MongoStore) (u r : String) :
    Option PyDict :=
  (findOne store u r).map formatResult

/-- `replace_one(filter, document, upsert=True)`: replaces the first matching
document (keeping its Mongo `_id`) or appends the new document; the flag
reports whether an existing document was matched. -/
def replaceOne (store : MongoStore) (u r : String) (newDoc : MongoDoc) :
    MongoStore × Bool :=
  match store with
  | [] => ([newDoc], false)
  | d :: rest =>
    if docMatches u r d then ({ newDoc with objectId := d.objectId } :: rest, true)
    else ((d :: (replaceOne rest u r newDoc).1), (replaceOne rest u r newDoc).2)

/-- `save_analysis_result` (lines 55-107): upsert of the document keyed by
`(userId, reportId)`.  On an insert the result carries the new document id;
on a replace the "userId_reportId" string.  (`replace_one` reports a replaced
document as modified whenever the stored document changes, which the fresh
`creation_datetime` ensures, so the success flag tracks the upsert/match
outcome.) -/
def save_analysis_result (store : MongoStore) (u r : String)
    (analysis_result : PyVal) (now : Nat) (newObjectId : String) :
    PyDict × MongoStore :=
  let docu : MongoDoc := ⟨newObjectId, u, r, now, analysis_result⟩
  let res := replaceOne store u r docu
  if res.2 then
    ([("success", .bool true), ("document_id", .str (u ++ "_" ++ r)),
      ("timestamp", .str (toString now))], res.1)
  else
    ([("success", .bool true), ("document_id", .str newObjectId),
      ("timestamp", .str (toString now))], res.1)

/-- `get_analysis_results_by_user` (lines 109-144): all documents of the
user, newest first, formatted; any driver exception is caught and yields the
empty list (lines 142-144).  `queryRaises` is the driver-failure oracle. -/
def get_analysis_results_by_user (store : MongoStore) (queryRaises : Bool)
    (u : String) : List PyDict :=
  if queryRaises then []
  else
    ((store.filter (fun d => d.userId == u)).mergeSort
      (fun a b => decide (b.creationDatetime ≤ a.creationDatetime))).map formatResult

/-- Whether an action dict already carries `isChecked == b` (then a `$set`
of that field modifies nothing). -/
def isCheckedIs (action : PyDict) (b : Bool) : Bool :=
  match dget action "isChecked" with
  | some (.bool c) => c == b
  | _ => false

/-- The element update of the `$set` path `next_actions.<idx>.isChecked`:
element `idx` (when it is a document) gets `isChecked` set; everything else
is untouched. -/
def setListAt (xs : List PyVal) (idx : Nat) (b : Bool) : List PyVal :=
  match xs, idx with
  | [], _ => []
  | x :: rest, 0 =>
    (match x with
     | .dict ad => .dict (dset ad "isChecked" (.bool b))
     | other => other) :: rest
  | x :: rest, j + 1 => x :: setListAt rest j b

/-- The `$set` of `analysis_result.next_actions.<idx>.isChecked` applied to
the stored payload: navigates to the list and updates one element.  (On the
guarded call path the payload is a dict whose `next_actions` is a non-empty
list, so the fall-through branches are unreachable.) -/
def setIsCheckedAt (value : PyVal) (idx : Nat) (b : Bool) : PyVal :=
  match value with
  | .dict kvs =>
    (match dget kvs "next_actions" with
     | some (.list actions) =>
       .dict (dset kvs "next_actions" (.list (setListAt actions idx b)))
     | _ => .dict kvs)
  | other => other

/-- `update_one(filter, {"$set": ...})`: applies the `$set` to the first
matching document, leaving every other document untouched. -/
def updateOneSetIsChecked (store : MongoStore) (u r : String) (idx : Nat)
    (b : Bool) : MongoStore :=
  match store with
  | [] => []
  | d :: rest =>
    if docMatches u r d then
      { d with analysisResult := setIsCheckedAt d.analysisResult idx b } :: rest
    else d :: updateOneSetIsChecked rest u r idx b

/-- Whether the `$set` changes the matched document (MongoDB's
`modified_count` counts a document only when its stored value changes). -/
def wouldModify (store : MongoStore) (u r : String) (idx : Nat) (b : Bool) :
    Bool :=
  match findOne store u r with
  | none => false
  | some d =>
    match d.analysisResult with
    | .dict kvs =>
      match dget kvs "next_actions" with
      | some (.list actions) =>
        match actions[idx]? with
        | some (.dict ad) => !(isCheckedIs ad b)
        | _ => false
      | _ => false
    | _ => false

/-- The `next_actions` list stored inside a document's payload, when the
payload is a dict carrying a list there. -/
def docNextActions (d : MongoDoc) : Option (List PyVal) :=
  match d.analysisResult with
  | .dict kvs =>
    match dget kvs "next_actions" with
    | some (.list actions) => some actions
    | _ => none
  | _ => none

/-- The result dict of the report-missing branch (lines 203-208). -/
def notFoundResult (u r : String) : PyDict :=
  [("success", .bool false),
   ("error", .str "Analysis result not found"),
   ("message", .str ("No analysis result found for user: " ++ u ++ ", report: " ++ r))]

/-- The result dict of the empty-next_actions branch (lines 214-219). -/
def noNextActionsResult : PyDict :=
  [("success", .bool false),
   ("error", .str "No next_actions found"),
   ("message", .str "No next_actions found in the analysis result")]

/-- The result dict of the index-check branch (lines 222-227). -/
def invalidIndexResult (idx : Int) (n : Nat) : PyDict :=
  [("success", .bool false),
   ("error", .str "Invalid index"),
   ("message", .str ("next_action_idx " ++ toString idx
     ++ " is out of range. Available range: 0-" ++ toString (n - 1)))]

/-- The result dict when `update_one` modified nothing (lines 242-249). -/
def updateFailedResult : PyDict :=
  [("success", .bool false),
   ("error", .str "Failed to update document in MongoDB"),
   ("message", .str "Failed to update next action checked status")]

/-- The result dict of the success branch (lines 237-241); note the returned
action is the in-memory pre-update one. -/
def updateSuccessResult (action : PyVal) : PyDict :=
  [("success", .bool true),
   ("message", .str "Next action checked status updated successfully"),
   ("updated_action", action)]

/-- The result dict of the outer exception handler (lines 251-257), reached
when the stored payload is malformed enough to make the body raise. -/
def pyExceptionResult : PyDict :=
  [("success", .bool false),
   ("error", .str "TypeError"),
   ("message", .str "Failed to update next action checked status")]

/-- `update_next_action_checked_status` (mongodb_storage lines 186-257):
look the report up; missing report, empty `next_actions` and out-of-range
index each return their distinct failure dict without touching the store;
otherwise `update_one` performs the single-field `$set`, reported as success
exactly when it modified the document. -/
def update_next_action_checked_status (store : MongoStore) (u r : String)
    (idx : Int) (b : Bool) : PyDict × MongoStore :=
  match get_analysis_result_by_report store u r with
  | none => (notFoundResult u r, store)
  | some formatted =>
    match dgetD formatted "value" (.dict []) with
    | .dict vkvs =>
      (match dgetD vkvs "next_actions" (.list []) with
       | .list actions =>
         if actions.isEmpty then (noNextActionsResult, store)
         else if idx < 0 ∨ (actions.length : Int) ≤ idx then
           (invalidIndexResult idx actions.length, store)
         else
           let store2 := updateOneSetIsChecked store u r idx.toNat b
           if wouldModify store u r idx.toNat b then
             (updateSuccessResult (actions.getD idx.toNat .null), store2)
           else (updateFailedResult, store2)
       | other =>
         -- non-list `next_actions`: a falsy one takes the "No next_actions
         -- found" branch; a truthy one makes the body raise further down,
         -- caught into the generic failure with no state change
         if pyTruthy other then (pyExceptionResult, store)
         else (noNextActionsResult, store))
    | _ => (pyExceptionResult, store)

/-- Well-formedness of a stored document as the system writes it: the
payload is a dict whose `next_actions` binding is a list of dicts. -/
def WfDoc (d : MongoDoc) : Prop :=
  ∃ kvs actions, d.analysisResult = PyVal.dict kvs
    ∧ dget kvs "next_actions" = some (.list actions)
    ∧ ∀ a ∈ actions, ∃ ad, a = PyVal.dict ad

/-- The frame property of the single-field `$set`: the store keeps its
length; every document is either untouched or (when it matches the key) has
exactly the `$set` applied to its payload; the `$set` leaves every payload
key other than `next_actions` unchanged, every list position other than
`idx` unchanged, and at position `idx` rewrites only the `isChecked` field
of the action dict. -/
def SetOnlyIsChecked (store : MongoStore) (u r : String) (idx : Nat) (b : Bool) :
    Prop :=
  (updateOneSetIsChecked store u r idx b).length = store.length
  ∧ (∀ (i : Nat) (d : MongoDoc), store[i]? = some d →
      (updateOneSetIsChecked store u r idx b)[i]? = some d
      ∨ ((updateOneSetIsChecked store u r idx b)[i]?
            = some { d with analysisResult := setIsCheckedAt d.analysisResult idx b }
         ∧ docMatches u r d = true))
  ∧ (∀ kvs : PyDict, ∃ kvs2 : PyDict,
      setIsCheckedAt (PyVal.dict kvs) idx b = PyVal.dict kvs2
      ∧ ∀ k, k ≠ "next_actions" → dget kvs2 k = dget kvs k)
  ∧ (∀ acts : List PyVal, (setListAt acts idx b).length = acts.length)
  ∧ (∀ (acts : List PyVal) (j : Nat), j ≠ idx → (setListAt acts idx b)[j]? = acts[j]?)
  ∧ (∀ (acts : List PyVal) (ad : PyDict), acts[idx]? = some (.dict ad) →
      (setListAt acts idx b)[idx]? = some (.dict (dset ad "isChecked" (.bool b))))
  ∧ (∀ ad : PyDict, dget (dset ad "isChecked" (.bool b)) "isChecked" = some (.bool b))
  ∧ (∀ (ad : PyDict) (k : String), k ≠ "isChecked" →
      dget (dset ad "isChecked" (.bool b)) k = dget ad k)

/-- The full behaviour of `update_next_action_checked_status` on a
well-formed store: the three failure dicts characterize exactly the missing
report, the empty `next_actions` list and the out-of-range index; every
failure leaves the store untouched; success happens exactly on an in-range
index whose `$set` changes the stored value, returns the (pre-update) action
at that index, and performs the single-field update, which by
`SetOnlyIsChecked` touches nothing else. -/
def UpdateCheckedSpec (store : MongoStore) (u r : String) (idx : Int) (b : Bool) :
    Prop :=
  (dget (update_next_action_checked_status store u r idx b).1 "error"
      = some (.str "Analysis result not found")
    ↔ findOne store u r = none)
  ∧ (dget (update_next_action_checked_status store u r idx b).1 "error"
      = some (.str "No next_actions found")
    ↔ ∃ d, findOne store u r = some d ∧ docNextActions d = some [])
  ∧ (dget (update_next_action_checked_status store u r idx b).1 "error"
      = some (.str "Invalid index")
    ↔ ∃ d acts, findOne store u r = some d ∧ docNextActions d = some acts
        ∧ acts ≠ [] ∧ (idx < 0 ∨ (acts.length : Int) ≤ idx))
  ∧ (dget (update_next_action_checked_status store u r idx b).1 "success"
      = some (.bool false)
    → (update_next_action_checked_status store u r idx b).2 = store)
  ∧ (dget (update_next_action_checked_status store u r idx b).1 "success"
      = some (.bool true)
    → ∃ d acts ad,
        findOne store u r = some d ∧ docNextActions d = some acts
        ∧ 0 ≤ idx ∧ idx < (acts.length : Int)
        ∧ acts[idx.toNat]? = some (.dict ad)
        ∧ dget (update_next_action_checked_status store u r idx b).1 "updated_action"
            = some (.dict ad)
        ∧ (isCheckedIs ad b) = false
        ∧ (update_next_action_checked_status store u r idx b).2
            = updateOneSetIsChecked store u r idx.toNat b)
  ∧ SetOnlyIsChecked store u r idx.toNat b

/- ============== ReportsApi/__init__.py ============== -/

/-- An HTTP response: status code and JSON body. -/
structure HttpResp where
  status : Nat
  body : PyVal

/-- `ReportsApi.main` (lines 7-70): 400 when `user_id` is absent or empty,
otherwise 200 with the formatted reports of the user and their count. -/
def reportsApiMain (userId : Option String) (store : MongoStore)
    (queryRaises : Bool) : HttpResp :=
  match userId with
  | none =>
    ⟨400, .dict [("error", .str "Missing required parameter: user_id"),
                 ("message", .str "user_id is required as a query parameter")]⟩
  | some u =>
    if u = "" then
      ⟨400, .dict [("error", .str "Missing required parameter: user_id"),
                   ("message", .str "user_id is required as a query parameter")]⟩
    else
      let results := get_analysis_results_by_user store queryRaises u
      let formatted := results.map (fun res => PyVal.dict
        [("document_id", dgetD res "id" .null),
         ("user_id", dgetD res "userId" .null),
         ("report_id", dgetD res "reportId" .null),
         ("analysis_result", dgetD res "value" .null),
         ("creation_datetime", dgetD res "creation_datetime" .null)])
      ⟨200, .dict [("success", .bool true), ("user_id", .str u),
                   ("total_count", .int results.length),
                   ("reports", .list formatted)]⟩

/- ============== HttpStart/__init__.py ============== -/

/-- Outcome of the HTTP entry point: an HTTP error response, or an
orchestration instance started with the validated request data (line 188;
the check-status response it then returns is the collaborator's). -/
inductive HttpStartOutcome where
  | response (status : Nat) (message : String)
  | orchestrationStarted (clientInput : PyDict)

/-- Lines 149-151: `user_id` is defaulted to "anonymous_user" when absent
from the JSON body. -/
def httpStartRequestData (body : PyDict) : PyDict :=
  if (dget body "user_id").isSome then body
  else dset body "user_id" (.str "anonymous_user")

/-- The `application/json` branch of `HttpStart.main` (lines 139-151)
followed by the required-field loop (lines 159-167) and the orchestration
start (line 188): an empty body is rejected, `user_id` is defaulted, and
each of `file_names`, `files`, `user_summary` must be present as a key —
presence is the only check, emptiness is not rejected. -/
def httpStartJson (body : PyDict) : HttpStartOutcome :=
  if body.isEmpty then .response 400 "Request body cannot be empty"
  else
    let requestData := httpStartRequestData body
    if (dget requestData "file_names").isNone then
      .response 400 "Missing required field: file_names"
    else if (dget requestData "files").isNone then
      .response 400 "Missing required field: files"
    else if (dget requestData "user_summary").isNone then
      .response 400 "Missing required field: user_summary"
    else .orchestrationStarted requestData

/- ======== Concrete instances used as test vectors ======== -/

/-- A concrete validated analysis request, as `HttpStart` forwards it. -/
def cOrchRequest : PyDict :=
  [("file_names", .list [.str "a.pdf"]),
   ("files", .list [.str "QkFTRTY0"]),
   ("user_summary", .str "CO2 때문"),
   ("user_id", .str "u1")]

/-- A concrete `ContentAwareAgent` activity result. -/
def cOrchContent : PyDict :=
  [("file_analysis", .list []),
   ("extracted_content", .str "문서 내용"),
   ("total_files_processed", .int 1)]

/-- Concrete results delivered at the `task_all` join. -/
def cOrchResults : List PyVal := [.dict [], .list [], .list []]

/-- The `analysis_data` record the orchestrator builds for `cOrchRequest`
and `cOrchContent` with no speech-to-text output. -/
def cAnalysisData : PyDict :=
  [("user_summary", .str "CO2 때문"),
   ("file_analysis", .list []),
   ("document_content", .str "문서 내용"),
   ("stt_texts", .list [])]

/-- A store holding one report of user u1 whose `next_actions` is empty. -/
def cEmptyActionsStore : MongoStore :=
  [⟨"oid1", "u1", "r1", 1, .dict [("score", .int 70), ("next_actions", .list [])]⟩]

/-- A store holding one report of user u1 with one unchecked next action. -/
def cCheckedStore : MongoStore :=
  [⟨"oid1", "u1", "r1", 1,
    .dict [("score", .int 70),
           ("next_actions", .list [.dict [("action", .str "자료 조사"),
                                          ("isChecked", .bool false)]])]⟩]

/-- A store holding one report that belongs to user alice. -/
def cAliceStore : MongoStore := [⟨"oid9", "alice", "r9", 5, .dict []⟩]

/-- A JSON ingress body whose `files` field is present but empty. -/
def cEmptyFilesBody : PyDict :=
  [("file_names", .list []), ("files", .list []), ("user_summary", .str "CO2 때문")]

/- ===================== THEOREMS ===================== -/

theorem dget_dset_same (d : PyDict) (k : String) (v : PyVal) :
    dget (dset d k v) k = some v := by
  induction d with
  | nil => simp [dset, dget]
  | cons kv rest ih =>
    obtain ⟨k₁, v₁⟩ := kv
    by_cases h : k₁ = k <;> simp [dset, dget, h, ih]

theorem dget_dset_other (d : PyDict) (k k₁ : String) (v : PyVal) (h : k ≠ k₁) :
    dget (dset d k v) k₁ = dget d k₁ := by
  induction d with
  | nil => simp [dset, dget, h]
  | cons kv rest ih =>
    obtain ⟨k₂, v₂⟩ := kv
    by_cases hk : k₂ = k
    · subst hk
      simp [dset, dget, h]
    · simp [dset, dget, hk, ih]

theorem dget_dpop_same (d : PyDict) (k : String) :
    dget (dpop d k) k = none := by
  induction d with
  | nil => simp [dpop, dget]
  | cons kv rest ih =>
    obtain ⟨k₁, v₁⟩ := kv
    by_cases h : k₁ = k
    · subst h
      simpa [dpop, dget] using ih
    · simpa [dpop, dget, h] using ih

theorem dget_dpop_other (d : PyDict) (k k₁ : String) (h : k₁ ≠ k) :
    dget (dpop d k) k₁ = dget d k₁ := by
  induction d with
  | nil => simp [dpop, dget]
  | cons kv rest ih =>
    obtain ⟨k₂, v₂⟩ := kv
    by_cases hk : k₂ = k
    · subst hk
      simp [dpop, dget, Ne.symm h]
      simpa [dpop] using ih
    · by_cases hk₁ : k₂ = k₁
      · subst hk₁
        simp [dpop, List.filter, hk, dget]
      · simp [dpop, List.filter, hk, dget, hk₁]
        simpa [dpop] using ih

theorem dget_mem (d : PyDict) (k : String) (v : PyVal) (h : dget d k = some v) :
    (k, v) ∈ d := by
  induction d with
  | nil => simp [dget] at h
  | cons kv rest ih =>
    obtain ⟨k₁, v₁⟩ := kv
    by_cases hk : k₁ = k
    · subst hk
      simp [dget] at h
      simp [h]
    · simp [dget, hk] at h
      exact List.mem_cons_of_mem _ (ih h)

theorem except_bind_error {α β : Type} (e : String) (f : α → Except String β) :
    (Except.error e >>= f) = Except.error e := rfl

theorem except_bind_ok {α β : Type} (a : α) (f : α → Except String β) :
    (Except.ok a >>= f) = f a := rfl

theorem createErrorFeedback_raises (message : String) :
    createErrorFeedback message = Except.error feedbackTitleTypeError := rfl

theorem feedbackFromEvaluationData_raises (evaluationData : PyDict) :
    feedbackFromEvaluationData evaluationData = Except.error feedbackTitleTypeError := rfl

/-- C2: on every evaluation failure the agent is meant to return the degraded
feedback (title "분석 오류", score 0, non-empty improvement points) and the
instance is meant to complete — but `shared_code.models.Feedback` has no
`title` field, so every `Feedback(...)` call of the agent, including the one
inside `_create_error_feedback` itself, raises a `TypeError`; the activity
therefore raises on every path instead of returning the degraded output.
The intended degraded content is visible in the keyword record the error
helper passes to `Feedback`. -/
theorem C2_evaluation_agent_always_raises (clientOk : Bool) (request : PyDict)
    (path : EvalAiPath) (message : String) :
    comprehensionEvaluationMain clientOk request path = Except.error feedbackTitleTypeError
    ∧ dget (createErrorFeedbackKwargs message) "title" = some (.str "분석 오류")
    ∧ dget (createErrorFeedbackKwargs message) "score" = some (.int 0)
    ∧ dget (createErrorFeedbackKwargs message) "improvement_points"
        = some (.list [.str message]) := by
  refine ⟨?_, rfl, rfl, rfl⟩
  cases clientOk with
  | false => simp [comprehensionEvaluationMain, createErrorFeedback_raises]
  | true =>
    cases hb : (!(pyTruthy (dgetD request "document_content" (.str ""))) ||
        !(pyTruthy (dgetD request "user_summary" (.str "")))) with
    | true =>
      simp [comprehensionEvaluationMain, hb, createErrorFeedback_raises]
    | false =>
      cases path with
      | apiError => simp [comprehensionEvaluationMain, hb, createErrorFeedback_raises]
      | parseFailure => simp [comprehensionEvaluationMain, hb, createErrorFeedback_raises]
      | parsed evaluationData =>
        simp [comprehensionEvaluationMain, hb, feedbackFromEvaluationData_raises,
          createErrorFeedback_raises]

theorem find_some_of_mem {α : Type} (p : α → Bool) (l : List α) (x : α)
    (hx : x ∈ l) (hp : p x = true) : ∃ y, l.find? p = some y := by
  induction l with
  | nil => cases hx
  | cons a rest ih =>
    cases hb : p a with
    | true => exact ⟨a, by simp [List.find?, hb]⟩
    | false =>
      rcases List.mem_cons.mp hx with h | h
      · subst h
        rw [hb] at hp
        cases hp
      · obtain ⟨y, hy⟩ := ih h
        exact ⟨y, by simp [List.find?, hb, hy]⟩

theorem orchestratorAssemble_errors (evaluationResult : PyDict)
    (questionResult actionResult fileAnalysisResults : PyVal) :
    ∃ e, orchestratorAssemble evaluationResult questionResult actionResult
      fileAnalysisResults = Except.error e := by
  cases h₁ : dget evaluationResult "title" with
  | none =>
    refine ⟨"KeyError: title", ?_⟩
    simp [orchestratorAssemble, pyGetItem, h₁, except_bind_error, except_bind_ok]
  | some title =>
    cases h₂ : dget evaluationResult "score" with
    | none =>
      refine ⟨"KeyError: score", ?_⟩
      simp [orchestratorAssemble, pyGetItem, h₁, h₂, except_bind_error, except_bind_ok]
    | some score =>
      have hmem : ("title", title) ∈ evaluationResult := dget_mem _ _ _ h₁
      have hpred : (fun kv : String × PyVal => !(feedbackFields.contains kv.1))
          ("title", title) = true := by
        simp [feedbackFields]
      obtain ⟨kv, hkv⟩ := find_some_of_mem
        (fun kv : String × PyVal => !(feedbackFields.contains kv.1))
        evaluationResult ("title", title) hmem hpred
      refine ⟨"TypeError: unexpected keyword argument " ++ kv.1, ?_⟩
      simp only [orchestratorAssemble, pyGetItem, h₁, h₂, dataclassInit,
        except_bind_error, except_bind_ok, hkv, Except.map]

/-- C3: the storage step is indeed absorb-and-continue — for any assembled
result dict, the terminal return value is independent of whether the save
succeeded, returned a failure record or raised, and it carries `report_id`
with `file_analysis` removed — but no orchestration instance ever reaches
that step: the preceding assembly `AnalysisResult(title=..., ...,
feedback=Feedback(**evaluation_result))` raises a `TypeError` for every
possible evaluation result, because the models.py dataclasses have no
`title` field (and a result without `title` raises a `KeyError` first). -/
theorem C3_persist_absorbs_but_assembly_raises (evaluationResult : PyDict)
    (questionResult actionResult fileAnalysisResults : PyVal)
    (analysisResultDict : PyDict) (reportId : String) (s₁ s₂ : SaveOutcome) :
    (∃ e, orchestratorAssemble evaluationResult questionResult actionResult
      fileAnalysisResults = Except.error e)
    ∧ orchestratorPersistAndReturn analysisResultDict reportId s₁
      = orchestratorPersistAndReturn analysisResultDict reportId s₂
    ∧ dget (orchestratorPersistAndReturn analysisResultDict reportId s₁) "report_id"
      = some (.str reportId)
    ∧ dget (orchestratorPersistAndReturn analysisResultDict reportId s₁)
        "file_analysis" = none := by
  refine ⟨orchestratorAssemble_errors _ _ _ _, ?_, ?_, ?_⟩
  · cases s₁ <;> cases s₂ <;> rfl
  · cases s₁ <;>
      (show dget (dpop (dset analysisResultDict "report_id" (.str reportId))
        "file_analysis") "report_id" = some (.str reportId)
       rw [dget_dpop_other _ _ _ (by decide), dget_dset_same])
  · cases s₁ <;> exact dget_dpop_same _ _

/-- C1: counterexample — in the orchestrator's actual schedule for a concrete
request, the Question and Action stages are scheduled (events 3 and 4) before
the parallel join that first delivers the evaluation result (event 5), and
the input record they receive has no `evaluation` field at all, contrary to
the claim that evaluation completes first and both stages receive the frozen
evaluation output under `evaluation`. -/
theorem C1_counterexample :
    (orchestratorTrace cOrchRequest [] cOrchContent cOrchResults).get? 2
      = some (.activityScheduled "ComprehensionEvaluationAgent" (.dict cAnalysisData))
    ∧ (orchestratorTrace cOrchRequest [] cOrchContent cOrchResults).get? 3
      = some (.activityScheduled "QuestionGenerationAgent" (.dict cAnalysisData))
    ∧ (orchestratorTrace cOrchRequest [] cOrchContent cOrchResults).get? 4
      = some (.activityScheduled "ActionItemSuggestionAgent" (.dict cAnalysisData))
    ∧ (orchestratorTrace cOrchRequest [] cOrchContent cOrchResults).get? 5
      = some (.resultsAwaited cOrchResults)
    ∧ dget cAnalysisData "evaluation" = none := by
  refine ⟨rfl, rfl, rfl, rfl, rfl⟩

/-- C1: what the code actually guarantees — for every orchestration input,
the evaluation, question and action activities are all scheduled together
(trace positions 2, 3, 4) with one and the same input record, that record
never contains an `evaluation` field, and the single join delivering all
three results is the following event: the two generation stages do not wait
for, and never observe, the evaluation output. -/
theorem C1_amended_all_three_stages_parallel (analysisRequest : PyDict)
    (sttTexts : List PyVal) (processedContent : PyDict) (stageResults : List PyVal) :
    ∃ d : PyDict,
      (orchestratorTrace analysisRequest sttTexts processedContent stageResults).get? 2
        = some (.activityScheduled "ComprehensionEvaluationAgent" (.dict d))
      ∧ (orchestratorTrace analysisRequest sttTexts processedContent stageResults).get? 3
        = some (.activityScheduled "QuestionGenerationAgent" (.dict d))
      ∧ (orchestratorTrace analysisRequest sttTexts processedContent stageResults).get? 4
        = some (.activityScheduled "ActionItemSuggestionAgent" (.dict d))
      ∧ (orchestratorTrace analysisRequest sttTexts processedContent stageResults).get? 5
        = some (.resultsAwaited stageResults)
      ∧ (orchestratorTrace analysisRequest sttTexts processedContent stageResults).length = 6
      ∧ dget d "evaluation" = none := by
  refine ⟨analysisData (dgetD analysisRequest "user_summary" (.str ""))
    (withSttTexts processedContent sttTexts), rfl, rfl, rfl, rfl, rfl, rfl⟩

/-- C4: counterexample — the assembly loop forces `key` and `isChecked` but
never touches `completed`; an action record arriving from the Action Stage
with `completed = true` keeps it, so the claim that `completed == false`
holds for any action sequence is false. -/
theorem C4_counterexample :
    ¬ (∀ (nextActions : List PyDict) (i : Nat) (r : PyDict),
        (addKeyAndIsChecked nextActions)[i]? = some r →
        dget r "key" = some (.int i) ∧ dget r "isChecked" = some (.bool false)
          ∧ dget r "completed" = some (.bool false)) := by
  intro h
  have h2 := (h [[("completed", PyVal.bool true)]] 0
    [("completed", PyVal.bool true), ("key", PyVal.int 0), ("isChecked", PyVal.bool false)]
    rfl).2.2
  simp [dget] at h2

/-- C4: what the assembly loop guarantees — for every incoming action
sequence, position `i` of the result carries `key = i` and
`isChecked = false`, while `completed` is passed through unchanged from the
Action Stage output (the stage itself defaults it to false only when absent
from the model reply, ActionItemSuggestionAgent line 148). -/
theorem C4_amended_completed_passed_through (nextActions : List PyDict) :
    (addKeyAndIsChecked nextActions).length = nextActions.length
    ∧ ∀ i : Nat, i < nextActions.length →
        ∃ a r, nextActions[i]? = some a
          ∧ (addKeyAndIsChecked nextActions)[i]? = some r
          ∧ r = dset (dset a "key" (.int i)) "isChecked" (.bool false)
          ∧ dget r "key" = some (.int i)
          ∧ dget r "isChecked" = some (.bool false)
          ∧ dget r "completed" = dget a "completed" := by
  constructor
  · simp [addKeyAndIsChecked]
  · intro i hi
    obtain ⟨a, ha⟩ : ∃ a, nextActions[i]? = some a := ⟨_, List.getElem?_eq_getElem hi⟩
    refine ⟨a, dset (dset a "key" (.int i)) "isChecked" (.bool false), ha, ?_, rfl,
      ?_, ?_, ?_⟩
    · simp [addKeyAndIsChecked, ha]
    · rw [dget_dset_other _ _ _ _ (by decide), dget_dset_same]
    · exact dget_dset_same _ _ _
    · rw [dget_dset_other _ _ _ _ (by decide), dget_dset_other _ _ _ _ (by decide)]

theorem C4_amended_witness :
    ∃ a r, ([[("completed", PyVal.bool false)]] : List PyDict)[0]? = some a
      ∧ (addKeyAndIsChecked [[("completed", PyVal.bool false)]])[0]? = some r
      ∧ r = dset (dset a "key" (.int 0)) "isChecked" (.bool false)
      ∧ dget r "key" = some (.int 0)
      ∧ dget r "isChecked" = some (.bool false)
      ∧ dget r "completed" = dget a "completed" :=
  (C4_amended_completed_passed_through [[("completed", PyVal.bool false)]]).2 0
    (by decide)

theorem joinSep_infix_of_mem (sep x : String) (l : List String) (hx : x ∈ l) :
    ∃ pre post, joinSep sep l = pre ++ x ++ post := by
  induction l with
  | nil => cases hx
  | cons a rest ih =>
    rcases List.mem_cons.mp hx with h | h
    · subst h
      cases rest with
      | nil => exact ⟨"", "", by simp [joinSep]⟩
      | cons b rs =>
        refine ⟨"", sep ++ joinSep sep (b :: rs), ?_⟩
        simp [joinSep, String.append_assoc]
    · obtain ⟨pre, post, hpp⟩ := ih h
      cases rest with
      | nil => cases h
      | cons b rs =>
        refine ⟨a ++ sep ++ pre, post, ?_⟩
        simp [joinSep, hpp, String.append_assoc]

theorem enumFrom_filter_map_snd {α : Type} (p : α → Bool) (l : List α) (n : Nat) :
    ((l.enumFrom n).filter (fun q => p q.2)).map (fun q => q.2) = l.filter p := by
  induction l generalizing n with
  | nil => rfl
  | cons a rest ih =>
    cases hp : p a <;> simp [List.enumFrom, List.filter, hp, ih]

theorem docEntry_file_name (fileName : String) (o : DocOutcome) :
    (docEntry fileName o).file_name = fileName := by
  cases o <;> rfl

/-- C6: counterexample — with two document files of which the second fails,
the stage is not aborted and the combined text keeps the first file's text,
but the failed file's status is the message-carrying string "error: boom",
not the literal status "error" the claim states. -/
theorem C6_counterexample :
    ((contentAwareMain ["a.pdf", "b.pdf"] [.str "QQ==", .str "Qg=="] (fun _ => "")
        cDocOracle).1.map (fun r => r.processing_status)) = ["completed", "error: boom"]
    ∧ ((contentAwareMain ["a.pdf", "b.pdf"] [.str "QQ==", .str "Qg=="] (fun _ => "")
        cDocOracle).1.map (fun r => r.extracted_text)) = ["알파 본문", ""]
    ∧ (contentAwareMain ["a.pdf", "b.pdf"] [.str "QQ==", .str "Qg=="] (fun _ => "")
        cDocOracle).2 = "알파 본문"
    ∧ "error: boom" ≠ "error" :=
  ⟨rfl, rfl, rfl, by decide⟩

/-- C6 (amended): a failed document file yields an entry with empty extracted
text and an "error: "-prefixed status (carrying the exception message), the
stage is not aborted, and the combined text still contains the text of every
other successfully extracted file. -/
theorem C6_amended_error_prefixed_status (fileNames : List String)
    (files : List PyVal) (stt : Nat → String) (doc : Nat → DocOutcome)
    (hf : files.isEmpty = false) (j : Nat) (name message : String)
    (hj : (j, name) ∈ docRouted fileNames) (hdoc : doc j = .raised message) :
    ContentAwareFailureSpec fileNames files stt doc j name message := by
  have hmain : (contentAwareMain fileNames files stt doc).1
      = (sttRouted fileNames).map (fun p => sttEntry p.2 (stt p.1))
        ++ (docRouted fileNames).map (fun p => docEntry p.2 (doc p.1)) := by
    simp [contentAwareMain, hf]
  have hcomb : (contentAwareMain fileNames files stt doc).2
      = joinSep "\n\n" (allExtractedText fileNames stt doc) := by
    simp [contentAwareMain, hf]
  refine ⟨?_, by rw [hdoc]; rfl, by rw [hdoc]; rfl, ?_, ?_⟩
  · rw [hmain]
    refine List.mem_append.mpr (Or.inr ?_)
    exact List.mem_map.mpr ⟨(j, name), hj, rfl⟩
  · intro i nm content layout confidence hmem hdoc2 hne
    rw [hcomb]
    refine joinSep_infix_of_mem _ _ _ ?_
    refine List.mem_append.mpr (Or.inr ?_)
    refine List.mem_filterMap.mpr ⟨(i, nm), hmem, ?_⟩
    rw [hdoc2]
    simp [hne]
  · intro p hp
    rw [hcomb]
    refine joinSep_infix_of_mem _ _ _ ?_
    refine List.mem_append.mpr (Or.inl ?_)
    exact List.mem_map.mpr ⟨p, hp, rfl⟩

theorem C6_amended_witness :
    ContentAwareFailureSpec ["a.pdf", "b.pdf"] [.str "QQ==", .str "Qg=="]
      (fun _ => "") cDocOracle 1 "b.pdf" "boom" :=
  C6_amended_error_prefixed_status ["a.pdf", "b.pdf"] [.str "QQ==", .str "Qg=="]
    (fun _ => "") cDocOracle rfl 1 "b.pdf" "boom" (by decide) rfl

/-- C7: counterexample — a document file followed by an audio file comes back
with the audio file's entry first: the per-file results are grouped by
processing route, not kept in original upload order. -/
theorem C7_counterexample :
    ((contentAwareMain ["a.pdf", "b.mp3"] [.str "ZG9j", .str "bXAz"]
        (fun _ => "음성 텍스트") (fun _ => DocOutcome.analyzed "문서 본문" [] 0)).1.map
      (fun r => r.file_name)) = ["b.mp3", "a.pdf"]
    ∧ (["b.mp3", "a.pdf"] : List String) ≠ ["a.pdf", "b.mp3"] :=
  ⟨rfl, by decide⟩

/-- C7 (amended): for every non-empty request the per-file results are the
audio/video-routed files first, in their original relative order, followed by
the document-routed files in their original relative order. -/
theorem C7_amended_route_grouped (fileNames : List String) (files : List PyVal)
    (stt : Nat → String) (doc : Nat → DocOutcome) (hf : files.isEmpty = false) :
    (contentAwareMain fileNames files stt doc).1.map (fun r => r.file_name)
      = fileNames.filter isAudioOrVideo
        ++ fileNames.filter (fun n => !(isAudioOrVideo n)) := by
  have hmain : (contentAwareMain fileNames files stt doc).1
      = (sttRouted fileNames).map (fun p => sttEntry p.2 (stt p.1))
        ++ (docRouted fileNames).map (fun p => docEntry p.2 (doc p.1)) := by
    simp [contentAwareMain, hf]
  rw [hmain, List.map_append, List.map_map, List.map_map]
  congr 1
  · exact enumFrom_filter_map_snd isAudioOrVideo fileNames 0
  · have heq : (docRouted fileNames).map
        ((fun r => r.file_name) ∘ fun p => docEntry p.2 (doc p.1))
        = (docRouted fileNames).map (fun p => p.2) :=
      List.map_congr_left (fun p _ => docEntry_file_name _ _)
    rw [heq]
    exact enumFrom_filter_map_snd (fun n => !(isAudioOrVideo n)) fileNames 0

theorem C7_amended_witness :
    (contentAwareMain ["a.pdf", "b.mp3"] [.str "ZG9j", .str "bXAz"]
        (fun _ => "음성 텍스트") (fun _ => DocOutcome.analyzed "문서 본문" [] 0)).1.map
      (fun r => r.file_name)
      = List.filter isAudioOrVideo ["a.pdf", "b.mp3"]
        ++ List.filter (fun n => !(isAudioOrVideo n)) ["a.pdf", "b.mp3"] :=
  C7_amended_route_grouped _ _ _ _ rfl

theorem save_store_eq (store : MongoStore) (u r : String) (v : PyVal) (now : Nat)
    (oid : String) :
    (save_analysis_result store u r v now oid).2
      = (replaceOne store u r ⟨oid, u, r, now, v⟩).1 := by
  cases h : (replaceOne store u r ⟨oid, u, r, now, v⟩).2 <;>
    simp [save_analysis_result, h]

theorem findOne_replaceOne (store : MongoStore) (u r oid : String) (now : Nat)
    (v : PyVal) :
    ∃ oid2, findOne (replaceOne store u r ⟨oid, u, r, now, v⟩).1 u r
      = some ⟨oid2, u, r, now, v⟩ := by
  induction store with
  | nil =>
    refine ⟨oid, ?_⟩
    simp [replaceOne, findOne, List.find?, docMatches]
  | cons d rest ih =>
    cases h : docMatches u r d with
    | true =>
      refine ⟨d.objectId, ?_⟩
      have hstep : (replaceOne (d :: rest) u r ⟨oid, u, r, now, v⟩).1
          = ⟨d.objectId, u, r, now, v⟩ :: rest := by
        simp [replaceOne, h]
      rw [hstep]
      unfold findOne
      rw [List.find?_cons_of_pos _ (by simp [docMatches])]
    | false =>
      obtain ⟨oid2, h2⟩ := ih
      refine ⟨oid2, ?_⟩
      have hstep : (replaceOne (d :: rest) u r ⟨oid, u, r, now, v⟩).1
          = d :: (replaceOne rest u r ⟨oid, u, r, now, v⟩).1 := by
        simp [replaceOne, h]
      rw [hstep]
      unfold findOne
      rw [List.find?_cons_of_neg _ (by simp [h])]
      exact h2

/-- C8: round trip — saving a report under `(userId, reportId)` and reading
it back with the same pair returns the saved payload under `value`, with the
matching key fields; only the storage-assigned document id and timestamp
vary. -/
theorem C8_save_get_roundtrip (store : MongoStore) (u r : String)
    (analysis_result : PyVal) (now : Nat) (newObjectId : String) :
    ∃ fmt, get_analysis_result_by_report
        (save_analysis_result store u r analysis_result now newObjectId).2 u r
        = some fmt
      ∧ dget fmt "value" = some analysis_result
      ∧ dget fmt "userId" = some (.str u)
      ∧ dget fmt "reportId" = some (.str r) := by
  obtain ⟨oid2, h2⟩ := findOne_replaceOne store u r newObjectId now analysis_result
  refine ⟨formatResult ⟨oid2, u, r, now, analysis_result⟩, ?_, rfl, rfl, rfl⟩
  rw [get_analysis_result_by_report, save_store_eq, h2]
  rfl

/-- C10: a driver exception during the by-user query is swallowed into the
empty list, so the operation and the Reports API response are identical for
a failing store and for a user who simply has no reports: both give a 200
with `total_count` 0 and empty `reports`. -/
theorem C10_driver_error_equals_no_reports (store : MongoStore) (u : String)
    (hu : u ≠ "") (hnone : ∀ d ∈ store, d.userId ≠ u) :
    get_analysis_results_by_user store true u = []
    ∧ get_analysis_results_by_user store false u = []
    ∧ reportsApiMain (some u) store true = reportsApiMain (some u) store false
    ∧ reportsApiMain (some u) store true
      = ⟨200, .dict [("success", .bool true), ("user_id", .str u),
                     ("total_count", .int 0), ("reports", .list [])]⟩ := by
  have hfilter : store.filter (fun d => d.userId == u) = [] := by
    rw [List.filter_eq_nil_iff]
    intro d hd
    simpa using hnone d hd
  have hq : get_analysis_results_by_user store false u = [] := by
    simp [get_analysis_results_by_user, hfilter]
  refine ⟨rfl, hq, ?_, ?_⟩
  · simp [reportsApiMain, hu, hq, get_analysis_results_by_user, hfilter]
  · simp [reportsApiMain, hu, hq, get_analysis_results_by_user, hfilter]

theorem C10_witness :
    get_analysis_results_by_user cAliceStore true "bob" = []
    ∧ get_analysis_results_by_user cAliceStore false "bob" = []
    ∧ reportsApiMain (some "bob") cAliceStore true
      = reportsApiMain (some "bob") cAliceStore false
    ∧ reportsApiMain (some "bob") cAliceStore true
      = ⟨200, .dict [("success", .bool true), ("user_id", .str "bob"),
                     ("total_count", .int 0), ("reports", .list [])]⟩ :=
  C10_driver_error_equals_no_reports cAliceStore "bob" (by decide)
    (by
      intro d hd
      simp [cAliceStore] at hd
      subst hd
      decide)

/-- C9: counterexample — a JSON body whose `files` field is present but
empty (and no blob_urls) passes validation and starts an orchestration
instance; it is not rejected with a 400 response. -/
theorem C9_counterexample :
    httpStartJson cEmptyFilesBody
      = .orchestrationStarted (cEmptyFilesBody ++ [("user_id", .str "anonymous_user")])
    ∧ ∀ status message, httpStartJson cEmptyFilesBody ≠ .response status message := by
  constructor
  · rfl
  · intro status message h
    have h2 : HttpStartOutcome.orchestrationStarted
        (cEmptyFilesBody ++ [("user_id", PyVal.str "anonymous_user")])
        = HttpStartOutcome.response status message := by
      rw [← h]
      rfl
    exact HttpStartOutcome.noConfusion h2

/-- C9 (amended): only the absence of the `files` key is rejected — every
JSON body with no `files` binding gets a 400 response and starts nothing,
while a present-but-empty `files` list passes validation and an instance is
started (see the counterexample). -/
theorem C9_amended_absent_files_rejected (body : PyDict)
    (hfiles : dget body "files" = none) :
    ∃ message, httpStartJson body = .response 400 message := by
  have hrd : dget (httpStartRequestData body) "files" = none := by
    unfold httpStartRequestData
    by_cases hu : (dget body "user_id").isSome
    · simpa [hu] using hfiles
    · simp only [hu, if_false, Bool.false_eq_true]
      rw [dget_dset_other _ _ _ _ (by decide)]
      exact hfiles
  by_cases hempty : body.isEmpty
  · exact ⟨"Request body cannot be empty", by simp [httpStartJson, hempty]⟩
  · cases hfn : dget (httpStartRequestData body) "file_names" with
    | none =>
      exact ⟨"Missing required field: file_names",
        by simp [httpStartJson, hempty, hfn]⟩
    | some v =>
      exact ⟨"Missing required field: files",
        by simp [httpStartJson, hempty, hfn, hrd]⟩

theorem C9_amended_witness :
    ∃ message, httpStartJson [("user_summary", PyVal.str "CO2 때문")]
      = .response 400 message :=
  C9_amended_absent_files_rejected [("user_summary", PyVal.str "CO2 때문")] rfl

theorem dset_self (d : PyDict) (k : String) (v : PyVal) (h : dget d k = some v) :
    dset d k v = d := by
  induction d with
  | nil => simp [dget] at h
  | cons kv rest ih =>
    obtain ⟨k₁, v₁⟩ := kv
    by_cases hk : k₁ = k
    · subst hk
      simp [dget] at h
      simp [dset, h]
    · simp [dget, hk] at h
      simp [dset, hk, ih h]

theorem setListAt_length (acts : List PyVal) (idx : Nat) (b : Bool) :
    (setListAt acts idx b).length = acts.length := by
  induction acts generalizing idx with
  | nil => rfl
  | cons a rest ih =>
    cases idx with
    | zero => simp [setListAt]
    | succ j => simp [setListAt, ih]

theorem setListAt_getElem_ne (acts : List PyVal) (idx j : Nat) (b : Bool)
    (h : j ≠ idx) : (setListAt acts idx b)[j]? = acts[j]? := by
  induction acts generalizing idx j with
  | nil => cases idx <;> rfl
  | cons a rest ih =>
    cases idx with
    | zero =>
      cases j with
      | zero => exact absurd rfl h
      | succ i => simp [setListAt]
    | succ m =>
      cases j with
      | zero => simp [setListAt]
      | succ i =>
        simpa [setListAt] using ih m i (fun hh => h (by rw [hh]))

theorem setListAt_getElem_eq (acts : List PyVal) (idx : Nat) (b : Bool)
    (ad : PyDict) (h : acts[idx]? = some (.dict ad)) :
    (setListAt acts idx b)[idx]? = some (.dict (dset ad "isChecked" (.bool b))) := by
  induction acts generalizing idx with
  | nil => simp at h
  | cons a rest ih =>
    cases idx with
    | zero =>
      simp at h
      subst h
      simp [setListAt]
    | succ m =>
      simp at h
      simpa [setListAt] using ih m h

theorem setListAt_self (acts : List PyVal) (idx : Nat) (b : Bool) (ad : PyDict)
    (hget : acts[idx]? = some (.dict ad))
    (hchecked : dget ad "isChecked" = some (.bool b)) :
    setListAt acts idx b = acts := by
  induction acts generalizing idx with
  | nil => simp at hget
  | cons a rest ih =>
    cases idx with
    | zero =>
      simp at hget
      subst hget
      simp [setListAt, dset_self _ _ _ hchecked]
    | succ m =>
      simp at hget
      simp [setListAt, ih m hget]

theorem setIsCheckedAt_dict (idx : Nat) (b : Bool) (kvs : PyDict) :
    ∃ kvs2 : PyDict, setIsCheckedAt (PyVal.dict kvs) idx b = PyVal.dict kvs2
      ∧ ∀ k, k ≠ "next_actions" → dget kvs2 k = dget kvs k := by
  cases h : dget kvs "next_actions" with
  | none => exact ⟨kvs, by simp [setIsCheckedAt, h], fun k hk => rfl⟩
  | some v =>
    cases v
    case list actions =>
      refine ⟨dset kvs "next_actions" (.list (setListAt actions idx b)),
        by simp [setIsCheckedAt, h],
        fun k hk => dget_dset_other _ _ _ _ (fun hh => hk hh.symm)⟩
    all_goals exact ⟨kvs, by simp [setIsCheckedAt, h], fun k hk => rfl⟩

theorem updateOne_length (store : MongoStore) (u r : String) (idx : Nat)
    (b : Bool) : (updateOneSetIsChecked store u r idx b).length = store.length := by
  induction store with
  | nil => rfl
  | cons d rest ih =>
    cases h : docMatches u r d <;> simp [updateOneSetIsChecked, h, ih]

theorem updateOne_frame (store : MongoStore) (u r : String) (idx : Nat)
    (b : Bool) (i : Nat) (d : MongoDoc) (hd : store[i]? = some d) :
    (updateOneSetIsChecked store u r idx b)[i]? = some d
    ∨ ((updateOneSetIsChecked store u r idx b)[i]?
        = some { d with analysisResult := setIsCheckedAt d.analysisResult idx b }
       ∧ docMatches u r d = true) := by
  induction store generalizing i with
  | nil => simp at hd
  | cons e rest ih =>
    cases h : docMatches u r e with
    | true =>
      cases i with
      | zero =>
        simp at hd
        subst hd
        right
        exact ⟨by simp [updateOneSetIsChecked, h], h⟩
      | succ m =>
        simp at hd
        left
        simp [updateOneSetIsChecked, h, hd]
    | false =>
      cases i with
      | zero =>
        simp at hd
        subst hd
        left
        simp [updateOneSetIsChecked, h]
      | succ m =>
        simp at hd
        simpa [updateOneSetIsChecked, h] using ih m hd

theorem updateOne_self (store : MongoStore) (u r : String) (idx : Nat) (b : Bool)
    (d : MongoDoc) (hfind : findOne store u r = some d)
    (hself : setIsCheckedAt d.analysisResult idx b = d.analysisResult) :
    updateOneSetIsChecked store u r idx b = store := by
  induction store with
  | nil => simp [findOne, List.find?] at hfind
  | cons e rest ih =>
    cases h : docMatches u r e with
    | true =>
      have he : e = d := by
        unfold findOne at hfind
        rw [List.find?_cons_of_pos _ h] at hfind
        exact Option.some.inj hfind
      subst he
      simp [updateOneSetIsChecked, h, hself]
    | false =>
      have hfind2 : findOne rest u r = some d := by
        unfold findOne at hfind ⊢
        rwa [List.find?_cons_of_neg _ (by simp [h])] at hfind
      simp [updateOneSetIsChecked, h, ih hfind2]

theorem setOnlyIsChecked_holds (store : MongoStore) (u r : String) (idx : Nat)
    (b : Bool) : SetOnlyIsChecked store u r idx b :=
  ⟨updateOne_length store u r idx b,
   fun i d hd => updateOne_frame store u r idx b i d hd,
   setIsCheckedAt_dict idx b,
   fun acts => setListAt_length acts idx b,
   fun acts j hj => setListAt_getElem_ne acts idx j b hj,
   fun acts ad hget => setListAt_getElem_eq acts idx b ad hget,
   fun ad => dget_dset_same ad "isChecked" (.bool b),
   fun ad k hk => dget_dset_other ad "isChecked" k (.bool b) (fun hh => hk hh.symm)⟩

theorem pv_str_some_ne (a c : String) (h : a ≠ c) :
    some (PyVal.str a) ≠ some (PyVal.str c) := by
  intro hh
  injection hh with h2
  injection h2 with h3
  exact h h3

theorem pv_bool_some_ne (a c : Bool) (h : a ≠ c) :
    some (PyVal.bool a) ≠ some (PyVal.bool c) := by
  intro hh
  injection hh with h2
  injection h2 with h3
  exact h h3

theorem isCheckedIs_true (ad : PyDict) (b : Bool) (h : isCheckedIs ad b = true) :
    dget ad "isChecked" = some (.bool b) := by
  unfold isCheckedIs at h
  cases hg : dget ad "isChecked" with
  | none => rw [hg] at h; cases h
  | some v =>
    rw [hg] at h
    cases v with
    | bool c =>
      have : c = b := by simpa using h
      rw [this]
    | str s => cases h
    | int n => cases h
    | list xs => cases h
    | dict kvs => cases h
    | null => cases h

theorem update_reduce (store : MongoStore) (u r : String) (idx : Int) (b : Bool)
    (d : MongoDoc) (kvs : PyDict) (acts : List PyVal)
    (hfind : findOne store u r = some d)
    (hd1 : d.analysisResult = .dict kvs)
    (hd2 : dget kvs "next_actions" = some (.list acts)) :
    update_next_action_checked_status store u r idx b
      = if acts.isEmpty then (noNextActionsResult, store)
        else if idx < 0 ∨ (acts.length : Int) ≤ idx then
          (invalidIndexResult idx acts.length, store)
        else if wouldModify store u r idx.toNat b then
          (updateSuccessResult (acts.getD idx.toNat .null),
           updateOneSetIsChecked store u r idx.toNat b)
        else (updateFailedResult, updateOneSetIsChecked store u r idx.toNat b) := by
  have hval : dgetD (formatResult d) "value" (.dict []) = d.analysisResult := by
    simp [formatResult, dgetD, dget]
  have hna : dgetD kvs "next_actions" (.list []) = .list acts := by
    simp [dgetD, hd2]
  unfold update_next_action_checked_status
  rw [get_analysis_result_by_report, hfind]
  simp only [Option.map_some']
  rw [hval, hd1]
  simp only []
  rw [hna]

/-- C5: counterexample — on a stored report whose `next_actions` is empty,
index 0 is not a valid position, so the claim demands the OutOfRange error
("Invalid index" in this code); the call instead returns the distinct
"No next_actions found" failure (which the Checked API maps to a 500, not a
400).  Nothing is mutated, and the report does exist. -/
theorem C5_counterexample :
    findOne cEmptyActionsStore "u1" "r1"
      = some ⟨"oid1", "u1", "r1", 1,
          .dict [("score", .int 70), ("next_actions", .list [])]⟩
    ∧ (update_next_action_checked_status cEmptyActionsStore "u1" "r1" 0 true).1
      = noNextActionsResult
    ∧ dget noNextActionsResult "error" = some (.str "No next_actions found")
    ∧ dget noNextActionsResult "error" ≠ some (.str "Invalid index")
    ∧ (update_next_action_checked_status cEmptyActionsStore "u1" "r1" 0 true).2
      = cEmptyActionsStore := by
  refine ⟨rfl, rfl, rfl, ?_, rfl⟩
  exact pv_str_some_ne _ _ (by decide)

theorem wouldModify_eq (store : MongoStore) (u r : String) (idxn : Nat)
    (b : Bool) (d : MongoDoc) (kvs : PyDict) (acts : List PyVal) (ad : PyDict)
    (hfind : findOne store u r = some d)
    (hd1 : d.analysisResult = .dict kvs)
    (hd2 : dget kvs "next_actions" = some (.list acts))
    (hget : acts[idxn]? = some (.dict ad)) :
    wouldModify store u r idxn b = !(isCheckedIs ad b) := by
  simp [wouldModify, hfind, hd1, hd2, hget]

/-- C5 (amended): on a well-formed store the update is characterized as
follows — the NotFound failure exactly when the report does not exist; the
OutOfRange failure ("Invalid index") exactly when the report exists with a
NON-EMPTY `next_actions` and the index is negative or past the end; an empty
`next_actions` yields the distinct "No next_actions found" failure instead
of OutOfRange; every failure leaves the store unchanged (including a `$set`
that would change nothing, which is reported as a generic write failure);
success happens exactly on an in-range index whose `isChecked` actually
differs, returns the pre-update action, and performs the single-field
`$set`, which by the bundled frame property touches no other field, action,
document or key. -/
theorem C5_amended_update_characterized (store : MongoStore) (u r : String)
    (idx : Int) (b : Bool) (hwf : ∀ d ∈ store, WfDoc d) :
    UpdateCheckedSpec store u r idx b := by
  cases hfind : findOne store u r with
  | none =>
    have hred : update_next_action_checked_status store u r idx b
        = (notFoundResult u r, store) := by
      unfold update_next_action_checked_status
      rw [get_analysis_result_by_report, hfind]
      rfl
    unfold UpdateCheckedSpec
    rw [hred]
    refine ⟨⟨fun _ => hfind, fun _ => rfl⟩, ?_, ?_, fun _ => rfl, ?_,
      setOnlyIsChecked_holds store u r idx.toNat b⟩
    · constructor
      · intro h
        exact absurd h (pv_str_some_ne _ _ (by decide))
      · rintro ⟨d, hf, -⟩
        rw [hfind] at hf
        cases hf
    · constructor
      · intro h
        exact absurd h (pv_str_some_ne _ _ (by decide))
      · rintro ⟨d, acts, hf, -, -, -⟩
        rw [hfind] at hf
        cases hf
    · intro h
      exact absurd h (pv_bool_some_ne _ _ (by decide))
  | some d =>
    have hmem : d ∈ store := List.mem_of_find?_eq_some hfind
    obtain ⟨kvs, acts, hd1, hd2, hd3⟩ := hwf d hmem
    have hdna : docNextActions d = some acts := by
      simp [docNextActions, hd1, hd2]
    have hred := update_reduce store u r idx b d kvs acts hfind hd1 hd2
    by_cases hempty : acts = []
    · subst hempty
      rw [if_pos (by rfl)] at hred
      unfold UpdateCheckedSpec
      rw [hred]
      refine ⟨?_, ⟨fun _ => ⟨d, hfind, hdna⟩, fun _ => rfl⟩, ?_, fun _ => rfl, ?_,
        setOnlyIsChecked_holds store u r idx.toNat b⟩
      · constructor
        · intro h
          exact absurd h (pv_str_some_ne _ _ (by decide))
        · intro h
          rw [h] at hfind
          cases hfind
      · constructor
        · intro h
          exact absurd h (pv_str_some_ne _ _ (by decide))
        · rintro ⟨d2, acts2, hf2, hdna2, hne2, -⟩
          rw [hfind] at hf2
          injection hf2 with hdd
          subst hdd
          rw [hdna] at hdna2
          injection hdna2 with haa
          exact (hne2 haa.symm).elim
      · intro h
        exact absurd h (pv_bool_some_ne _ _ (by decide))
    · have hie : ¬(acts.isEmpty = true) := by
        cases acts with
        | nil => exact absurd rfl hempty
        | cons a rest => simp
      rw [if_neg hie] at hred
      by_cases hrange : idx < 0 ∨ (acts.length : Int) ≤ idx
      · rw [if_pos hrange] at hred
        unfold UpdateCheckedSpec
        rw [hred]
        refine ⟨?_, ?_, ⟨fun _ => ⟨d, acts, hfind, hdna, hempty, hrange⟩, fun _ => rfl⟩,
          fun _ => rfl, ?_, setOnlyIsChecked_holds store u r idx.toNat b⟩
        · constructor
          · intro h
            exact absurd h (pv_str_some_ne _ _ (by decide))
          · intro h
            rw [h] at hfind
            cases hfind
        · constructor
          · intro h
            exact absurd h (pv_str_some_ne _ _ (by decide))
          · rintro ⟨d2, hf2, hdna2⟩
            rw [hfind] at hf2
            injection hf2 with hdd
            subst hdd
            rw [hdna] at hdna2
            injection hdna2 with haa
            exact (hempty haa).elim
        · intro h
          exact absurd h (pv_bool_some_ne _ _ (by decide))
      · rw [if_neg hrange] at hred
        push_neg at hrange
        obtain ⟨h0, hlt⟩ := hrange
        have hltn : idx.toNat < acts.length := by omega
        obtain ⟨a, hget0⟩ : ∃ a, acts[idx.toNat]? = some a :=
          ⟨_, List.getElem?_eq_getElem hltn⟩
        have hamem : a ∈ acts := List.getElem?_mem hget0
        obtain ⟨ad, had⟩ := hd3 a hamem
        subst had
        have hwm := wouldModify_eq store u r idx.toNat b d kvs acts ad hfind hd1 hd2 hget0
        by_cases hchk : isCheckedIs ad b = true
        · have hwm2 : wouldModify store u r idx.toNat b = false := by
            rw [hwm, hchk]
            rfl
          rw [if_neg (by simp [hwm2])] at hred
          have hset : setIsCheckedAt (PyVal.dict kvs) idx.toNat b
              = PyVal.dict (dset kvs "next_actions"
                  (.list (setListAt acts idx.toNat b))) := by
            simp [setIsCheckedAt, hd2]
          have hself : setIsCheckedAt d.analysisResult idx.toNat b
              = d.analysisResult := by
            rw [hd1, hset,
              setListAt_self acts idx.toNat b ad hget0 (isCheckedIs_true ad b hchk),
              dset_self kvs "next_actions" (.list acts) hd2]
          have hstore : updateOneSetIsChecked store u r idx.toNat b = store :=
            updateOne_self store u r idx.toNat b d hfind hself
          unfold UpdateCheckedSpec
          rw [hred, hstore]
          refine ⟨?_, ?_, ?_, fun _ => rfl, ?_,
            setOnlyIsChecked_holds store u r idx.toNat b⟩
          · constructor
            · intro h
              exact absurd h (pv_str_some_ne _ _ (by decide))
            · intro h
              rw [h] at hfind
              cases hfind
          · constructor
            · intro h
              exact absurd h (pv_str_some_ne _ _ (by decide))
            · rintro ⟨d2, hf2, hdna2⟩
              rw [hfind] at hf2
              injection hf2 with hdd
              subst hdd
              rw [hdna] at hdna2
              injection hdna2 with haa
              exact (hempty haa).elim
          · constructor
            · intro h
              exact absurd h (pv_str_some_ne _ _ (by decide))
            · rintro ⟨d2, acts2, hf2, hdna2, -, hr2⟩
              rw [hfind] at hf2
              injection hf2 with hdd
              subst hdd
              rw [hdna] at hdna2
              injection hdna2 with haa
              subst haa
              omega
          · intro h
            exact absurd h (pv_bool_some_ne _ _ (by decide))
        · have hchkf : isCheckedIs ad b = false := by
            cases hc : isCheckedIs ad b
            · rfl
            · exact absurd hc hchk
          have hwm2 : wouldModify store u r idx.toNat b = true := by
            rw [hwm, hchkf]
            rfl
          rw [if_pos hwm2] at hred
          unfold UpdateCheckedSpec
          rw [hred]
          refine ⟨?_, ?_, ?_, ?_, ?_, setOnlyIsChecked_holds store u r idx.toNat b⟩
          · constructor
            · intro h
              exact Option.noConfusion h
            · intro h
              rw [h] at hfind
              cases hfind
          · constructor
            · intro h
              exact Option.noConfusion h
            · rintro ⟨d2, hf2, hdna2⟩
              rw [hfind] at hf2
              injection hf2 with hdd
              subst hdd
              rw [hdna] at hdna2
              injection hdna2 with haa
              exact (hempty haa).elim
          · constructor
            · intro h
              exact Option.noConfusion h
            · rintro ⟨d2, acts2, hf2, hdna2, -, hr2⟩
              rw [hfind] at hf2
              injection hf2 with hdd
              subst hdd
              rw [hdna] at hdna2
              injection hdna2 with haa
              subst haa
              omega
          · intro h
            exact absurd h (pv_bool_some_ne _ _ (by decide))
          · intro _
            refine ⟨d, acts, ad, hfind, hdna, h0, hlt, hget0, ?_, hchkf, rfl⟩
            simp [updateSuccessResult, dget, hget0]

theorem C5_amended_witness :
    (∀ d ∈ cCheckedStore, WfDoc d)
    ∧ UpdateCheckedSpec cCheckedStore "u1" "r1" 0 true := by
  have hwf : ∀ d ∈ cCheckedStore, WfDoc d := by
    intro d hd
    simp [cCheckedStore] at hd
    subst hd
    refine ⟨_, _, rfl, rfl, ?_⟩
    intro a ha
    simp at ha
    subst ha
    exact ⟨_, rfl⟩
  exact ⟨hwf, C5_amended_update_characterized cCheckedStore "u1" "r1" 0 true hwf⟩
